import Mathlib

/-!
Verification of the bootloader-installation core (`extensions/image.py`):
a shallow embedding of `_get_partition` and `_install_grub2` together with
theorems about partition location, mount/unmount ordering, cleanup, and
error propagation.

External tools (`partx`, `udevadm`, `lsblk`, `findfs`, `mount`, `umount`,
the grub binaries) and the hardware module are modelled by an environment
record that fixes the outcome of each invocation; every invocation is
recorded in an event trace so that ordering and "never invoked" properties
can be stated.  `shlex.split` is external tokenisation, so the `lsblk`
report enters the model as a list of already-tokenised lines.  An `umount`
of a target that is not currently mounted always fails (the tool errors
out), which the model captures by threading the set of established mounts.
-/

namespace ImageExt

/-- External tool invocations and filesystem effects, in execution order. -/
inductive Event where
  | partx (dev : String)
  | udevadm
  | lsblk (dev : String)
  | findfsUUID (uuid : String)
  | findfsPARTUUID (uuid : String)
  | mkdtemp (path : String)
  | mdRestart (dev : String)
  | getHolderDisks (dev : String)
  | makedirs (p : String)
  | mount (target : String)
  | umount (target : String)
  | grubInstall (disk : String)
  | grubInstallRemovable (dev : String)
  | grubMkconfig
  | rmtree (p : String)
  deriving DecidableEq

/-- Result of `_get_partition`: a returned path, a raised `DeviceNotFound`,
a raised `CommandExecutionError`, or an unhandled Python error
(`ValueError` / `TypeError` from malformed scan lines). -/
inductive LocResult where
  | found (p : String)
  | deviceNotFound (msg : String)
  | commandExecutionError (msg : String)
  | pyError
  deriving DecidableEq

/-- Environment for one `_get_partition` call: outcomes of the external
tool invocations it may perform and the answers of `os.path` / `os.stat` /
`hardware.is_md_device`. -/
structure LocateEnv where
  partx_ok : Bool
  is_md_device : Bool
  path_exists : String → Bool
  stat_isblk : String → Bool
  lsblk_ok : Bool
  lsblk_lines : List (List String)
  findfs_uuid_result : Option String
  findfs_partuuid_result : Option String

/-- Python default whitespace, as stripped by `str.strip()`. -/
def isPySpace (c : Char) : Bool :=
  c == ' ' || c == '\t' || c == '\n' || c == '\r' ||
    c == Char.ofNat 11 || c == Char.ofNat 12

/-- Python `s.strip()`: drop leading and trailing whitespace. -/
def pyStrip (s : String) : String :=
  String.mk (((s.data.dropWhile isPySpace).reverse.dropWhile isPySpace).reverse)

/-- Split a character list at the first `=`. -/
def splitEq1Chars : List Char → Option (List Char × List Char)
  | [] => none
  | c :: cs =>
    if c == '=' then some ([], cs)
    else
      match splitEq1Chars cs with
      | some r => some (c :: r.fst, r.snd)
      | none => none

/-- Python `v.split('=', 1)` followed by unpacking into `key, val`:
`none` models the `ValueError` raised when the token has no equals sign. -/
def pySplitEq1 (s : String) : Option (String × String) :=
  match splitEq1Chars s.data with
  | some r => some (String.mk r.fst, String.mk r.snd)
  | none => none

/-- Lookup in a Python dict built by successive assignments: the binding
made last wins. -/
def dictGet (d : List (String × String)) (k : String) : Option String :=
  (d.reverse.find? (fun p => p.fst == k)).map Prod.snd

/-- Build the per-line dict: split each `KEY=VAL` token and strip the
value (`part[key] = val.strip()`).  `none` models a `ValueError`. -/
def parseLine : List String → Option (List (String × String))
  | [] => some []
  | t :: ts =>
    match pySplitEq1 t, parseLine ts with
    | some kv, some d => some ((kv.fst, pyStrip kv.snd) :: d)
    | _, _ => none

/-- Outcome of the scan loop over the `lsblk` report. -/
inductive ScanOut where
  | hit (p : String)
  | err
  | miss
  deriving DecidableEq

/-- Python `'/dev/' + part.get('KNAME')`: a missing `KNAME` raises a
`TypeError`, modelled by `.err`. -/
def knamePath (d : List (String × String)) : ScanOut :=
  match dictGet d ("KNAME") with
  | some k => ScanOut.hit ("/dev/" ++ k)
  | none => ScanOut.err

/-- The `for line in report.split('\n')` loop of `_get_partition`:
skip non-`part` records, return on the first `UUID` or `PARTUUID` match. -/
def scanLoop (uuid : String) : List (List String) → ScanOut
  | [] => ScanOut.miss
  | l :: ls =>
    match parseLine l with
    | none => ScanOut.err
    | some d =>
      if dictGet d ("TYPE") ≠ some ("part") then scanLoop uuid ls
      else if dictGet d ("UUID") = some uuid then knamePath d
      else if dictGet d ("PARTUUID") = some uuid then knamePath d
      else scanLoop uuid ls

/-- A scan line that the loop would return on: a `part` record whose
`UUID` or `PARTUUID` equals the requested uuid. -/
def lineMatches (uuid : String) (l : List String) : Bool :=
  match parseLine l with
  | none => false
  | some d =>
    dictGet d ("TYPE") == some ("part") &&
      (dictGet d ("UUID") == some uuid || dictGet d ("PARTUUID") == some uuid)

/-- Shallow embedding of `_get_partition(device, uuid)`, returning the
result together with the trace of external invocations. -/
def _get_partition (device uuid : String) (env : LocateEnv) :
    LocResult × List Event :=
  let t0 := if env.partx_ok then [Event.partx device, Event.udevadm]
            else [Event.partx device]
  if env.is_md_device then
    let md_partition := device ++ "p1"
    if !(env.path_exists md_partition) || !(env.stat_isblk md_partition) then
      (LocResult.deviceNotFound
        ("Could not find partition " ++ md_partition ++ " on md device " ++ device), t0)
    else
      (LocResult.found md_partition, t0)
  else
    let t1 := t0 ++ [Event.lsblk device]
    if env.lsblk_ok then
      match scanLoop uuid env.lsblk_lines with
      | ScanOut.hit p => (LocResult.found p, t1)
      | ScanOut.err => (LocResult.pyError, t1)
      | ScanOut.miss =>
        match env.findfs_uuid_result with
        | some out => (LocResult.found (pyStrip out), t1 ++ [Event.findfsUUID uuid])
        | none =>
          match env.findfs_partuuid_result with
          | some out =>
            (LocResult.found (pyStrip out),
             t1 ++ [Event.findfsUUID uuid, Event.findfsPARTUUID uuid])
          | none =>
            (LocResult.deviceNotFound
              ("No partition with UUID " ++ uuid ++ " found on device " ++ device),
             t1 ++ [Event.findfsUUID uuid, Event.findfsPARTUUID uuid])
    else
      (LocResult.commandExecutionError
        ("Finding the partition with UUID " ++ uuid ++ " on device " ++ device ++
         " failed with ProcessExecutionError"), t1)

/-- Targets of the `mount` invocations of a trace, in order. -/
def mountTargets (tr : List Event) : List String :=
  tr.filterMap (fun e => match e with | Event.mount t => some t | _ => none)

/-- Targets of the `umount` invocations of a trace, in order. -/
def umountTargets (tr : List Event) : List String :=
  tr.filterMap (fun e => match e with | Event.umount t => some t | _ => none)

/-- Disks the per-disk grub installer ran on, in order. -/
def installedDisks (tr : List Event) : List String :=
  tr.filterMap (fun e => match e with | Event.grubInstall d => some d | _ => none)

/-- Devices the `--removable` installer pass ran on, in order. -/
def removableRuns (tr : List Event) : List String :=
  tr.filterMap (fun e => match e with | Event.grubInstallRemovable d => some d | _ => none)

/-- Devices the RAID array restart ran on, in order. -/
def mdRestarts (tr : List Event) : List String :=
  tr.filterMap (fun e => match e with | Event.mdRestart d => some d | _ => none)

/-- The `findfs` probe invocations of a trace, in order. -/
def probeCalls (tr : List Event) : List Event :=
  tr.filter (fun e =>
    match e with
    | Event.findfsUUID _ => true
    | Event.findfsPARTUUID _ => true
    | _ => false)

/-- Result of `_install_grub2`: normal return, or one of the exceptions
that can escape it. -/
inductive InstallOutcome where
  | ok
  | deviceNotFound (msg : String)
  | commandExecutionError (msg : String)
  | pyError
  deriving DecidableEq

/-- Environment for one `_install_grub2` call.  The three `LocateEnv`
fields fix the worlds seen by the three `_get_partition` calls;
`mount_ok` / `umount_ok` give the tool outcome per target (for `umount`,
the outcome when the target is actually mounted). -/
structure InstallEnv where
  locRoot : LocateEnv
  locEfi : LocateEnv
  locPrep : LocateEnv
  tmpdir : String
  is_md_device : String → Bool
  holder_disks : String → List String
  grub2_install_exists : Bool
  efi_mp_exists : Bool
  mount_ok : String → Bool
  umount_ok : String → Bool
  grub_install_ok : String → Bool
  grub_removable_ok : Bool
  mkconfig_ok : Bool

/-- The fixed bind-mount sources (`BIND_MOUNTS` in the source). -/
def BIND_MOUNTS : List String := ["/dev", "/proc", "/run"]

/-- State reaching the `finally` block: in-flight outcome, trace so far,
established mounts, the `efi_mounted` / `efi_partition_mount_point`
variables, and the (possibly reassigned) `device` variable. -/
structure BodyState where
  outcome : InstallOutcome
  trace : List Event
  mounted : List String
  efi_mounted : Bool
  efi_partition_mount_point : Option String
  device : String
  deriving DecidableEq

/-- Message of the `CommandExecutionError` raised by the installer's
`except processutils.ProcessExecutionError` handler. -/
def installFailMsg (device : String) : String :=
  "Installing GRUB2 boot loader to device " ++ device ++
    " failed with ProcessExecutionError."

/-- The `for fs in BIND_MOUNTS: mount` loop: stops at the first failure
(the raised error aborts the loop). -/
def mountBinds (env : InstallEnv) (path : String) :
    List String → List Event × List String × Bool
  | [] => ([], [], true)
  | fs :: rest =>
    let tgt := path ++ fs
    if env.mount_ok tgt then
      let r := mountBinds env path rest
      (Event.mount tgt :: r.fst, tgt :: r.snd.fst, r.snd.snd)
    else
      ([Event.mount tgt], [], false)

/-- The per-disk `grub-install` loop: stops at the first failure. -/
def installDisks (env : InstallEnv) : List String → List Event × Bool
  | [] => ([], true)
  | d :: rest =>
    if env.grub_install_ok d then
      let r := installDisks env rest
      (Event.grubInstall d :: r.fst, r.snd)
    else
      ([Event.grubInstall d], false)

/-- The final `grub-mkconfig` step. -/
def mkconfigPhase (env : InstallEnv) (device : String) (mounted : List String)
    (efiM : Bool) (mp : Option String) (tr : List Event) : BodyState :=
  let tr := tr ++ [Event.grubMkconfig]
  if env.mkconfig_ok then
    { outcome := InstallOutcome.ok, trace := tr, mounted := mounted,
      efi_mounted := efiM, efi_partition_mount_point := mp, device := device }
  else
    { outcome := InstallOutcome.commandExecutionError (installFailMsg device),
      trace := tr, mounted := mounted,
      efi_mounted := efiM, efi_partition_mount_point := mp, device := device }

/-- The installer runs: per-disk installs, the optional `--removable`
pass (note: on the current `device` variable), then `grub-mkconfig`. -/
def installPhase (env : InstallEnv) (device : String) (disks : List String)
    (mounted : List String) (efiM : Bool) (mp : Option String)
    (efi_partition : Option String) (tr : List Event) : BodyState :=
  let r := installDisks env disks
  let tr := tr ++ r.fst
  if r.snd then
    match efi_partition with
    | some _ =>
      let tr := tr ++ [Event.grubInstallRemovable device]
      if env.grub_removable_ok then
        mkconfigPhase env device mounted efiM mp tr
      else
        { outcome := InstallOutcome.commandExecutionError (installFailMsg device),
          trace := tr, mounted := mounted,
          efi_mounted := efiM, efi_partition_mount_point := mp, device := device }
    | none => mkconfigPhase env device mounted efiM mp tr
  else
    { outcome := InstallOutcome.commandExecutionError (installFailMsg device),
      trace := tr, mounted := mounted,
      efi_mounted := efiM, efi_partition_mount_point := mp, device := device }

/-- Everything after the UUID resolutions: RAID restart and holder-disk
lookup, the mounts (root, binds, sysfs, optional EFI), and the installer
runs.  `device` is the current (possibly reassigned) device variable. -/
def mountAndInstall (env : InstallEnv) (root_partition : String)
    (efi_partition : Option String) (mp : Option String)
    (device : String) (path : String) (tr : List Event) : BodyState :=
  let dd := if env.is_md_device device then
              (tr ++ [Event.mdRestart device, Event.getHolderDisks device],
               env.holder_disks device)
            else (tr, [device])
  let tr := dd.fst
  let disks := dd.snd
  let tr := tr ++ [Event.mount path]
  if env.mount_ok path then
    let mounted := [path]
    let b := mountBinds env path BIND_MOUNTS
    let tr := tr ++ b.fst
    let mounted := mounted ++ b.snd.fst
    if b.snd.snd then
      let sysTgt := path ++ "/sys"
      let tr := tr ++ [Event.mount sysTgt]
      if env.mount_ok sysTgt then
        let mounted := mounted ++ [sysTgt]
        match efi_partition with
        | some _ =>
          let mpv := mp.getD ("")
          let tr := tr ++ (if env.efi_mp_exists then [] else [Event.makedirs mpv])
                       ++ [Event.mount mpv]
          if env.mount_ok mpv then
            installPhase env device disks (mounted ++ [mpv]) true mp efi_partition tr
          else
            { outcome := InstallOutcome.commandExecutionError (installFailMsg device),
              trace := tr, mounted := mounted,
              efi_mounted := false, efi_partition_mount_point := mp, device := device }
        | none => installPhase env device disks mounted false mp efi_partition tr
      else
        { outcome := InstallOutcome.commandExecutionError (installFailMsg device),
          trace := tr, mounted := mounted,
          efi_mounted := false, efi_partition_mount_point := mp, device := device }
    else
      { outcome := InstallOutcome.commandExecutionError (installFailMsg device),
        trace := tr, mounted := mounted,
        efi_mounted := false, efi_partition_mount_point := mp, device := device }
  else
    { outcome := InstallOutcome.commandExecutionError (installFailMsg device),
      trace := tr, mounted := [],
      efi_mounted := false, efi_partition_mount_point := mp, device := device }

/-- Optional PReP resolution: on success it reassigns the `device`
variable before the RAID check and installs. -/
def resolvePrep (device : String) (prep_uuid : Option String) (env : InstallEnv)
    (root_partition path : String) (efi_partition mp : Option String)
    (tr : List Event) : BodyState :=
  match prep_uuid with
  | some pu =>
    let r := _get_partition device pu env.locPrep
    let tr := tr ++ r.snd
    match r.fst with
    | LocResult.found p => mountAndInstall env root_partition efi_partition mp p path tr
    | LocResult.deviceNotFound m =>
      { outcome := InstallOutcome.deviceNotFound m, trace := tr, mounted := [],
        efi_mounted := false, efi_partition_mount_point := mp, device := device }
    | LocResult.commandExecutionError m =>
      { outcome := InstallOutcome.commandExecutionError m, trace := tr, mounted := [],
        efi_mounted := false, efi_partition_mount_point := mp, device := device }
    | LocResult.pyError =>
      { outcome := InstallOutcome.pyError, trace := tr, mounted := [],
        efi_mounted := false, efi_partition_mount_point := mp, device := device }
  | none => mountAndInstall env root_partition efi_partition mp device path tr

/-- The body of `_install_grub2`'s `try` block: workdir creation, the
optional EFI and PReP resolutions, then mounts and installs. -/
def setupAndInstall (device root_partition : String)
    (efi_uuid prep_uuid : Option String) (env : InstallEnv) : BodyState :=
  let path := env.tmpdir
  let tr := [Event.mkdtemp path]
  match efi_uuid with
  | some eu =>
    let r := _get_partition device eu env.locEfi
    let tr := tr ++ r.snd
    match r.fst with
    | LocResult.found p =>
      resolvePrep device prep_uuid env root_partition path (some p)
        (some (path ++ "/boot/efi")) tr
    | LocResult.deviceNotFound m =>
      { outcome := InstallOutcome.deviceNotFound m, trace := tr, mounted := [],
        efi_mounted := false, efi_partition_mount_point := none, device := device }
    | LocResult.commandExecutionError m =>
      { outcome := InstallOutcome.commandExecutionError m, trace := tr, mounted := [],
        efi_mounted := false, efi_partition_mount_point := none, device := device }
    | LocResult.pyError =>
      { outcome := InstallOutcome.pyError, trace := tr, mounted := [],
        efi_mounted := false, efi_partition_mount_point := none, device := device }
  | none => resolvePrep device prep_uuid env root_partition path none none tr

/-- Result of the `finally` block: a raised error message (on EFI
unmount failure), the unmount trace, whether `shutil.rmtree` ran, and
the remaining mounts. -/
structure CleanupResult where
  raised : Option String
  trace : List Event
  rmtree_called : Bool
  mounted : List String
  deriving DecidableEq

/-- Success of one `umount` invocation: the target must currently be
mounted (unmounting a non-mountpoint errors out) and the tool must
succeed on it. -/
def umountOk (env : InstallEnv) (mounted : List String) (target : String) : Bool :=
  mounted.contains target && env.umount_ok target

/-- The `for fs in BIND_MOUNTS: umount` loop of the `finally` block:
every bind is attempted, failures only set the flag. -/
def umountBindsLoop (env : InstallEnv) (path : String) (mounted : List String) :
    List String → List Event × List String × Bool
  | [] => ([], mounted, false)
  | fs :: rest =>
    let tgt := path ++ fs
    let ok := umountOk env mounted tgt
    let mounted1 := if ok then mounted.erase tgt else mounted
    let r := umountBindsLoop env path mounted1 rest
    (Event.umount tgt :: r.fst, r.snd.fst, (!ok) || r.snd.snd)

/-- Bind and sysfs unmounts, then — only if none of them failed — the
root unmount followed by removal of the working directory. -/
def cleanupBinds (env : InstallEnv) (path : String) (mounted : List String)
    (tr : List Event) : CleanupResult :=
  let b := umountBindsLoop env path mounted BIND_MOUNTS
  let sysTgt := path ++ "/sys"
  let sysOk := umountOk env b.snd.fst sysTgt
  let m2 := if sysOk then (b.snd.fst).erase sysTgt else b.snd.fst
  let bfail := b.snd.snd || !sysOk
  let tr := tr ++ b.fst ++ [Event.umount sysTgt]
  if bfail then
    { raised := none, trace := tr, rmtree_called := false, mounted := m2 }
  else
    let rootOk := umountOk env m2 path
    let tr := tr ++ [Event.umount path]
    if rootOk then
      { raised := none, trace := tr ++ [Event.rmtree path], rmtree_called := true,
        mounted := m2.erase path }
    else
      { raised := none, trace := tr, rmtree_called := false, mounted := m2 }

/-- The `finally` block of `_install_grub2`: EFI unmount first (raising
`CommandExecutionError` and skipping the rest on failure), then binds,
sysfs, and conditionally the root unmount and directory removal. -/
def cleanupUnmount (env : InstallEnv) (path : String) (efi_mounted : Bool)
    (mp : Option String) (mounted : List String) : CleanupResult :=
  if efi_mounted then
    let tgt := mp.getD ("")
    let ok := umountOk env mounted tgt
    if ok then
      cleanupBinds env path (mounted.erase tgt) [Event.umount tgt]
    else
      { raised := some ("Umounting efi system partition failed. Attempted 3 times. " ++
          "Error: ProcessExecutionError"),
        trace := [Event.umount tgt], rmtree_called := false, mounted := mounted }
  else cleanupBinds env path mounted []

/-- Observable result of one `_install_grub2` call. -/
structure InstallResult where
  outcome : InstallOutcome
  trace : List Event
  efi_mounted : Bool
  efi_partition_mount_point : Option String
  rmtree_called : Bool
  workdir : Option String
  deriving DecidableEq

/-- Shallow embedding of `_install_grub2`.  Root resolution happens
before the `try` block, so its failure skips setup and cleanup entirely;
an error raised by the `finally` block replaces the in-flight outcome. -/
def _install_grub2 (device root_uuid : String)
    (efi_system_part_uuid prep_boot_part_uuid : Option String)
    (env : InstallEnv) : InstallResult :=
  let r := _get_partition device root_uuid env.locRoot
  match r.fst with
  | LocResult.found root_partition =>
    let b := setupAndInstall device root_partition efi_system_part_uuid
               prep_boot_part_uuid env
    let c := cleanupUnmount env env.tmpdir b.efi_mounted
               b.efi_partition_mount_point b.mounted
    { outcome := match c.raised with
                 | some m => InstallOutcome.commandExecutionError m
                 | none => b.outcome,
      trace := r.snd ++ b.trace ++ c.trace,
      efi_mounted := b.efi_mounted,
      efi_partition_mount_point := b.efi_partition_mount_point,
      rmtree_called := c.rmtree_called,
      workdir := some env.tmpdir }
  | LocResult.deviceNotFound m =>
    { outcome := InstallOutcome.deviceNotFound m, trace := r.snd,
      efi_mounted := false, efi_partition_mount_point := none,
      rmtree_called := false, workdir := none }
  | LocResult.commandExecutionError m =>
    { outcome := InstallOutcome.commandExecutionError m, trace := r.snd,
      efi_mounted := false, efi_partition_mount_point := none,
      rmtree_called := false, workdir := none }
  | LocResult.pyError =>
    { outcome := InstallOutcome.pyError, trace := r.snd,
      efi_mounted := false, efi_partition_mount_point := none,
      rmtree_called := false, workdir := none }

end ImageExt

namespace ImageExt

/-- Left-cancellation for string append. -/
theorem strApp_inj (p a b : String) : p ++ a = p ++ b ↔ a = b := by
  constructor
  · intro h
    have hd : (p ++ a).data = (p ++ b).data := by rw [h]
    simp only [String.data_append] at hd
    exact String.ext (List.append_cancel_left hd)
  · intro h; rw [h]

/-- Appending the empty string is the identity. -/
theorem strApp_empty (p : String) : p ++ "" = p := by
  apply String.ext
  simp [String.data_append]

/-- Distinct suffixes give distinct strings under a common prefix. -/
theorem strApp_ne (p : String) {a b : String} (h : a ≠ b) : p ++ a ≠ p ++ b :=
  fun hc => h ((strApp_inj p a b).mp hc)

/-- A string differs from itself extended by a nonempty suffix. -/
theorem strApp_ne_self (p : String) {a : String} (h : a ≠ "") : p ≠ p ++ a := by
  intro hc
  apply h
  have : p ++ "" = p ++ a := by rw [strApp_empty]; exact hc
  exact ((strApp_inj p "" a).mp this).symm

/-- Boolean form of suffix cancellation. -/
theorem strApp_beq (p a b : String) : (p ++ a == p ++ b) = (a == b) := by
  by_cases h : a = b
  · subst h; simp
  · simp [h, strApp_ne p h]

/-- Boolean comparison of a string with an extension of itself. -/
theorem strApp_beq_left (p a : String) : (p == p ++ a) = ("" == a) := by
  nth_rewrite 1 [← strApp_empty p]
  exact strApp_beq p "" a

/-- Boolean comparison of an extension of a string with the string. -/
theorem strApp_beq_right (p a : String) : (p ++ a == p) = (a == "") := by
  nth_rewrite 2 [← strApp_empty p]
  exact strApp_beq p a ""

/-- The trace of `_get_partition` consists only of table-refresh, scan
and probe invocations: any filter that ignores those yields nothing. -/
theorem locate_trace_filter (d u : String) (e : LocateEnv) (f : Event → Option String)
    (hf1 : ∀ x, f (Event.partx x) = none) (hf2 : f Event.udevadm = none)
    (hf3 : ∀ x, f (Event.lsblk x) = none) (hf4 : ∀ x, f (Event.findfsUUID x) = none)
    (hf5 : ∀ x, f (Event.findfsPARTUUID x) = none) :
    ((_get_partition d u e).snd).filterMap f = [] := by
  unfold _get_partition
  repeat' split
  all_goals simp_all [List.filterMap_append, List.filterMap_cons]
  all_goals repeat' split
  all_goals simp_all

/-- No `mount` invocation happens inside `_get_partition`. -/
theorem mountTargets_locate (d u : String) (e : LocateEnv) :
    mountTargets (_get_partition d u e).snd = [] :=
  locate_trace_filter d u e _ (fun _ => rfl) rfl (fun _ => rfl) (fun _ => rfl)
    (fun _ => rfl)

/-- No `umount` invocation happens inside `_get_partition`. -/
theorem umountTargets_locate (d u : String) (e : LocateEnv) :
    umountTargets (_get_partition d u e).snd = [] :=
  locate_trace_filter d u e _ (fun _ => rfl) rfl (fun _ => rfl) (fun _ => rfl)
    (fun _ => rfl)

/-- No per-disk installer run happens inside `_get_partition`. -/
theorem installedDisks_locate (d u : String) (e : LocateEnv) :
    installedDisks (_get_partition d u e).snd = [] :=
  locate_trace_filter d u e _ (fun _ => rfl) rfl (fun _ => rfl) (fun _ => rfl)
    (fun _ => rfl)

/-- No `--removable` installer run happens inside `_get_partition`. -/
theorem removableRuns_locate (d u : String) (e : LocateEnv) :
    removableRuns (_get_partition d u e).snd = [] :=
  locate_trace_filter d u e _ (fun _ => rfl) rfl (fun _ => rfl) (fun _ => rfl)
    (fun _ => rfl)

/-- No RAID array restart happens inside `_get_partition`. -/
theorem mdRestarts_locate (d u : String) (e : LocateEnv) :
    mdRestarts (_get_partition d u e).snd = [] :=
  locate_trace_filter d u e _ (fun _ => rfl) rfl (fun _ => rfl) (fun _ => rfl)
    (fun _ => rfl)

theorem mountTargets_append (a b : List Event) :
    mountTargets (a ++ b) = mountTargets a ++ mountTargets b := by
  simp [mountTargets, List.filterMap_append]

theorem umountTargets_append (a b : List Event) :
    umountTargets (a ++ b) = umountTargets a ++ umountTargets b := by
  simp [umountTargets, List.filterMap_append]

theorem installedDisks_append (a b : List Event) :
    installedDisks (a ++ b) = installedDisks a ++ installedDisks b := by
  simp [installedDisks, List.filterMap_append]

theorem removableRuns_append (a b : List Event) :
    removableRuns (a ++ b) = removableRuns a ++ removableRuns b := by
  simp [removableRuns, List.filterMap_append]

theorem mdRestarts_append (a b : List Event) :
    mdRestarts (a ++ b) = mdRestarts a ++ mdRestarts b := by
  simp [mdRestarts, List.filterMap_append]

theorem probeCalls_append (a b : List Event) :
    probeCalls (a ++ b) = probeCalls a ++ probeCalls b := by
  simp [probeCalls, List.filter_append]

/-- The bind-mount loop emits only `mount` events. -/
theorem mountBinds_filter (env : InstallEnv) (p : String) (l : List String)
    (f : Event → Option String) (hm : ∀ x, f (Event.mount x) = none) :
    (mountBinds env p l).fst.filterMap f = [] := by
  induction l with
  | nil => simp [mountBinds]
  | cons fs rest ih =>
    unfold mountBinds
    by_cases h : env.mount_ok (p ++ fs) = true <;>
      simp [h, List.filterMap_cons, hm, ih]

/-- The per-disk install loop emits only `grubInstall` events. -/
theorem installDisks_filter (env : InstallEnv) (l : List String)
    (f : Event → Option String) (hg : ∀ x, f (Event.grubInstall x) = none) :
    (installDisks env l).fst.filterMap f = [] := by
  induction l with
  | nil => simp [installDisks]
  | cons d rest ih =>
    unfold installDisks
    by_cases h : env.grub_install_ok d = true <;>
      simp [h, List.filterMap_cons, hg, ih]

theorem umountTargets_mountBinds (env : InstallEnv) (p : String) (l : List String) :
    umountTargets (mountBinds env p l).fst = [] :=
  mountBinds_filter env p l _ (fun _ => rfl)

theorem umountTargets_installDisks (env : InstallEnv) (l : List String) :
    umountTargets (installDisks env l).fst = [] :=
  installDisks_filter env l _ (fun _ => rfl)

/-- `grub-mkconfig` adds no `umount` invocation. -/
theorem umountTargets_mkconfigPhase (env : InstallEnv) (dev : String)
    (m : List String) (efiM : Bool) (mp : Option String) (tr : List Event) :
    umountTargets (mkconfigPhase env dev m efiM mp tr).trace = umountTargets tr := by
  unfold mkconfigPhase
  dsimp only
  split
  all_goals simp only [umountTargets_append]
  all_goals simp [umountTargets]

/-- The installer phase adds no `umount` invocation. -/
theorem umountTargets_installPhase (env : InstallEnv) (dev : String)
    (disks m : List String) (efiM : Bool) (mp ep : Option String) (tr : List Event) :
    umountTargets (installPhase env dev disks m efiM mp ep tr).trace = umountTargets tr := by
  unfold installPhase
  dsimp only
  repeat' split
  all_goals simp only [umountTargets_mkconfigPhase, umountTargets_append,
    umountTargets_installDisks]
  all_goals simp [umountTargets]

/-- The mount-and-install phase adds no `umount` invocation. -/
theorem umountTargets_mountAndInstall (env : InstallEnv) (rp : String)
    (ep mp : Option String) (dev p : String) (tr : List Event) :
    umountTargets (mountAndInstall env rp ep mp dev p tr).trace = umountTargets tr := by
  unfold mountAndInstall
  dsimp only
  repeat' split
  all_goals simp only [umountTargets_installPhase, umountTargets_append,
    umountTargets_mountBinds]
  all_goals simp [umountTargets]

/-- The PReP resolution adds no `umount` invocation. -/
theorem umountTargets_resolvePrep (device : String) (pu : Option String)
    (env : InstallEnv) (rp path : String) (ep mp : Option String) (tr : List Event) :
    umountTargets (resolvePrep device pu env rp path ep mp tr).trace = umountTargets tr := by
  unfold resolvePrep
  dsimp only
  repeat' split
  all_goals simp only [umountTargets_mountAndInstall, umountTargets_append,
    umountTargets_locate]
  all_goals simp [umountTargets]

/-- The whole `try` body performs no `umount` invocation at all. -/
theorem umountTargets_setupAndInstall (device rp : String) (eu pu : Option String)
    (env : InstallEnv) :
    umountTargets (setupAndInstall device rp eu pu env).trace = [] := by
  unfold setupAndInstall
  dsimp only
  repeat' split
  all_goals simp only [umountTargets_resolvePrep, umountTargets_append,
    umountTargets_locate]
  all_goals simp [umountTargets]

theorem mkconfigPhase_mp (env : InstallEnv) (dev : String) (m : List String)
    (efiM : Bool) (mp : Option String) (tr : List Event) :
    (mkconfigPhase env dev m efiM mp tr).efi_partition_mount_point = mp := by
  unfold mkconfigPhase
  dsimp only
  split <;> rfl

theorem mkconfigPhase_efiM (env : InstallEnv) (dev : String) (m : List String)
    (efiM : Bool) (mp : Option String) (tr : List Event) :
    (mkconfigPhase env dev m efiM mp tr).efi_mounted = efiM := by
  unfold mkconfigPhase
  dsimp only
  split <;> rfl

theorem installPhase_mp (env : InstallEnv) (dev : String) (disks m : List String)
    (efiM : Bool) (mp ep : Option String) (tr : List Event) :
    (installPhase env dev disks m efiM mp ep tr).efi_partition_mount_point = mp := by
  unfold installPhase
  dsimp only
  repeat' split
  all_goals simp [mkconfigPhase_mp]

theorem installPhase_efiM (env : InstallEnv) (dev : String) (disks m : List String)
    (efiM : Bool) (mp ep : Option String) (tr : List Event) :
    (installPhase env dev disks m efiM mp ep tr).efi_mounted = efiM := by
  unfold installPhase
  dsimp only
  repeat' split
  all_goals simp [mkconfigPhase_efiM]

/-- Every exit of the mount-and-install phase keeps the
`efi_partition_mount_point` variable it was given. -/
theorem mountAndInstall_mp (env : InstallEnv) (rp : String) (ep mp : Option String)
    (dev p : String) (tr : List Event) :
    (mountAndInstall env rp ep mp dev p tr).efi_partition_mount_point = mp := by
  unfold mountAndInstall
  dsimp only
  repeat' split
  all_goals simp [installPhase_mp]

/-- Without a resolved EFI partition, `efi_mounted` can never be set. -/
theorem mountAndInstall_efiM_none (env : InstallEnv) (rp : String) (mp : Option String)
    (dev p : String) (tr : List Event) :
    (mountAndInstall env rp none mp dev p tr).efi_mounted = false := by
  unfold mountAndInstall
  dsimp only
  repeat' split
  all_goals simp [installPhase_efiM]

theorem resolvePrep_mp (device : String) (pu : Option String) (env : InstallEnv)
    (rp path : String) (ep mp : Option String) (tr : List Event) :
    (resolvePrep device pu env rp path ep mp tr).efi_partition_mount_point = mp := by
  unfold resolvePrep
  dsimp only
  repeat' split
  all_goals simp [mountAndInstall_mp]

theorem resolvePrep_efiM_none (device : String) (pu : Option String) (env : InstallEnv)
    (rp path : String) (mp : Option String) (tr : List Event) :
    (resolvePrep device pu env rp path none mp tr).efi_mounted = false := by
  unfold resolvePrep
  dsimp only
  repeat' split
  all_goals simp [mountAndInstall_efiM_none]

/-- Whenever the EFI partition got mounted, the recorded mount point is
`<workdir>/boot/efi`. -/
theorem setupAndInstall_efiMp (device rp : String) (eu pu : Option String)
    (env : InstallEnv)
    (h : (setupAndInstall device rp eu pu env).efi_mounted = true) :
    (setupAndInstall device rp eu pu env).efi_partition_mount_point =
      some (env.tmpdir ++ "/boot/efi") := by
  unfold setupAndInstall at h ⊢
  revert h
  dsimp only
  repeat' split
  all_goals intro h
  all_goals simp_all [resolvePrep_mp, resolvePrep_efiM_none]

/-- The bind-unmount loop emits only `umount` events. -/
theorem umountBindsLoop_filter (env : InstallEnv) (p : String) (M : List String)
    (l : List String) (f : Event → Option String)
    (hu : ∀ x, f (Event.umount x) = none) :
    (umountBindsLoop env p M l).fst.filterMap f = [] := by
  induction l generalizing M with
  | nil => simp [umountBindsLoop]
  | cons fs rest ih => simp [umountBindsLoop, List.filterMap_cons, hu, ih]

/-- Cleanup emits only `umount` and `rmtree` events. -/
theorem cleanup_filter (env : InstallEnv) (p : String) (efiM : Bool)
    (mp : Option String) (M : List String) (f : Event → Option String)
    (hu : ∀ x, f (Event.umount x) = none) (hr : ∀ x, f (Event.rmtree x) = none) :
    (cleanupUnmount env p efiM mp M).trace.filterMap f = [] := by
  unfold cleanupUnmount cleanupBinds
  dsimp only
  repeat' split
  all_goals simp [List.filterMap_append, List.filterMap_cons, hu, hr,
    umountBindsLoop_filter]

theorem mountTargets_cleanup (env : InstallEnv) (p : String) (efiM : Bool)
    (mp : Option String) (M : List String) :
    mountTargets (cleanupUnmount env p efiM mp M).trace = [] :=
  cleanup_filter env p efiM mp M _ (fun _ => rfl) (fun _ => rfl)

theorem installedDisks_cleanup (env : InstallEnv) (p : String) (efiM : Bool)
    (mp : Option String) (M : List String) :
    installedDisks (cleanupUnmount env p efiM mp M).trace = [] :=
  cleanup_filter env p efiM mp M _ (fun _ => rfl) (fun _ => rfl)

theorem removableRuns_cleanup (env : InstallEnv) (p : String) (efiM : Bool)
    (mp : Option String) (M : List String) :
    removableRuns (cleanupUnmount env p efiM mp M).trace = [] :=
  cleanup_filter env p efiM mp M _ (fun _ => rfl) (fun _ => rfl)

theorem mdRestarts_cleanup (env : InstallEnv) (p : String) (efiM : Bool)
    (mp : Option String) (M : List String) :
    mdRestarts (cleanupUnmount env p efiM mp M).trace = [] :=
  cleanup_filter env p efiM mp M _ (fun _ => rfl) (fun _ => rfl)


/-- With every disk install succeeding, the loop installs on each disk
in order and reports success. -/
theorem installDisks_all_ok (env : InstallEnv) (l : List String)
    (h : ∀ x, env.grub_install_ok x = true) :
    installDisks env l = (l.map Event.grubInstall, true) := by
  induction l with
  | nil => simp [installDisks]
  | cons d rest ih => simp [installDisks, h, ih]

/-- With every mount succeeding, the bind loop mounts `/dev`, `/proc`
and `/run` in order. -/
theorem mountBinds_all_ok (env : InstallEnv) (p : String)
    (h : ∀ t, env.mount_ok t = true) :
    mountBinds env p BIND_MOUNTS =
      ([Event.mount (p ++ "/dev"), Event.mount (p ++ "/proc"), Event.mount (p ++ "/run")],
       [p ++ "/dev", p ++ "/proc", p ++ "/run"], true) := by
  simp [mountBinds, BIND_MOUNTS, h]

/-- Cleanup after a fully mounted, fully successful run: EFI is
unmounted first, then the binds in their forward order, then sysfs,
then the root mount, and the working directory is removed. -/
theorem cleanup_full_success (env : InstallEnv) (p : String)
    (hu : ∀ t, env.umount_ok t = true) :
    cleanupUnmount env p true (some (p ++ "/boot/efi"))
      [p, p ++ "/dev", p ++ "/proc", p ++ "/run", p ++ "/sys", p ++ "/boot/efi"] =
    { raised := none,
      trace := [Event.umount (p ++ "/boot/efi"), Event.umount (p ++ "/dev"),
                Event.umount (p ++ "/proc"), Event.umount (p ++ "/run"),
                Event.umount (p ++ "/sys"), Event.umount p, Event.rmtree p],
      rmtree_called := true, mounted := [] } := by
  simp [cleanupUnmount, cleanupBinds, umountBindsLoop, umountOk, BIND_MOUNTS, hu,
    List.contains, List.erase, strApp_beq, strApp_beq_left, strApp_beq_right]

/-- Cleanup entered with nothing mounted: every bind and the sysfs
unmount fail, the root unmount is never attempted, nothing is removed. -/
theorem cleanup_nothing_mounted (env : InstallEnv) (p : String) (mp : Option String) :
    cleanupUnmount env p false mp [] =
    { raised := none,
      trace := [Event.umount (p ++ "/dev"), Event.umount (p ++ "/proc"),
                Event.umount (p ++ "/run"), Event.umount (p ++ "/sys")],
      rmtree_called := false, mounted := [] } := by
  simp [cleanupUnmount, cleanupBinds, umountBindsLoop, umountOk, BIND_MOUNTS]


/-- When no line of the report matches, the scan loop finds nothing. -/
theorem scanLoop_miss (u : String) : ∀ (lines : List (List String)),
    (∀ l ∈ lines, (parseLine l).isSome = true) →
    lines.find? (lineMatches u) = none →
    scanLoop u lines = ScanOut.miss := by
  intro lines
  induction lines with
  | nil => intro _ _; rfl
  | cons l ls ih =>
    intro hp hf
    have hm : lineMatches u l = false := by
      cases hml : lineMatches u l
      · rfl
      · rw [List.find?_cons_of_pos _ hml] at hf; cases hf
    have hf2 : ls.find? (lineMatches u) = none := by
      rwa [List.find?_cons_of_neg _ (by simp [hm])] at hf
    obtain ⟨d, hd⟩ := Option.isSome_iff_exists.mp (hp l (List.mem_cons_self l ls))
    have hrec := ih (fun x hx => hp x (List.mem_cons_of_mem _ hx)) hf2
    unfold scanLoop
    rw [hd]
    dsimp only
    simp only [lineMatches, hd] at hm
    split
    · exact hrec
    · rename_i hty
      rw [not_not] at hty
      simp only [hty, beq_self_eq_true, Bool.true_and, Bool.or_eq_false_iff,
        beq_eq_false_iff_ne, ne_eq] at hm
      rw [if_neg hm.1, if_neg hm.2]
      exact hrec

/-- The scan loop returns `/dev/<KNAME>` of the first matching line. -/
theorem scanLoop_hit (u : String) : ∀ (lines : List (List String))
    (l0 : List String) (d0 : List (String × String)) (kn : String),
    (∀ l ∈ lines, (parseLine l).isSome = true) →
    lines.find? (lineMatches u) = some l0 →
    parseLine l0 = some d0 →
    dictGet d0 ("KNAME") = some kn →
    scanLoop u lines = ScanOut.hit ("/dev/" ++ kn) := by
  intro lines
  induction lines with
  | nil => intro l0 d0 kn _ hf; cases hf
  | cons l ls ih =>
    intro l0 d0 kn hp hf hd0 hk
    cases hml : lineMatches u l
    · have hf2 : ls.find? (lineMatches u) = some l0 := by
        rwa [List.find?_cons_of_neg _ (by simp [hml])] at hf
      obtain ⟨d, hd⟩ := Option.isSome_iff_exists.mp (hp l (List.mem_cons_self l ls))
      have hrec := ih l0 d0 kn (fun x hx => hp x (List.mem_cons_of_mem _ hx)) hf2 hd0 hk
      unfold scanLoop
      rw [hd]
      dsimp only
      simp only [lineMatches, hd] at hml
      split
      · exact hrec
      · rename_i hty
        rw [not_not] at hty
        simp only [hty, beq_self_eq_true, Bool.true_and, Bool.or_eq_false_iff,
          beq_eq_false_iff_ne, ne_eq] at hml
        rw [if_neg hml.1, if_neg hml.2]
        exact hrec
    · have hl0 : l = l0 := by
        rw [List.find?_cons_of_pos _ hml] at hf
        exact Option.some_injective _ hf
      subst hl0
      unfold scanLoop
      rw [hd0]
      dsimp only
      simp only [lineMatches, hd0, Bool.and_eq_true, Bool.or_eq_true,
        beq_iff_eq] at hml
      rw [if_neg (by simp [hml.1])]
      rcases hml.2 with hu | hpu
      · rw [if_pos hu]
        simp [knamePath, hk]
      · by_cases hu2 : dictGet d0 ("UUID") = some u
        · rw [if_pos hu2]
          simp [knamePath, hk]
        · rw [if_neg hu2, if_pos hpu]
          simp [knamePath, hk]


/-- C3: for a device flagged as a RAID assembly, `_get_partition` returns
`<device>p1` exactly when that path exists and is a block special file,
raises `DeviceNotFound` otherwise, and never invokes the `lsblk` table
scan or the `findfs` probes. -/
theorem C3_raid_shortcut (d u : String) (e : LocateEnv)
    (hmd : e.is_md_device = true) :
    ((_get_partition d u e).fst = LocResult.found (d ++ "p1") ↔
       e.path_exists (d ++ "p1") = true ∧ e.stat_isblk (d ++ "p1") = true) ∧
    ((e.path_exists (d ++ "p1") = false ∨ e.stat_isblk (d ++ "p1") = false) →
       (_get_partition d u e).fst = LocResult.deviceNotFound
         ("Could not find partition " ++ (d ++ "p1") ++ " on md device " ++ d)) ∧
    (∀ x, Event.lsblk x ∉ (_get_partition d u e).snd) ∧
    (∀ q, Event.findfsUUID q ∉ (_get_partition d u e).snd ∧
          Event.findfsPARTUUID q ∉ (_get_partition d u e).snd) := by
  unfold _get_partition
  cases hpx : e.partx_ok <;>
    cases hex : e.path_exists (d ++ "p1") <;>
    cases hbk : e.stat_isblk (d ++ "p1") <;>
      simp [hmd, hpx, hex, hbk]

/-- C4: on a non-RAID device whose scan has a matching `part` record,
`_get_partition` returns `/dev/<KNAME>` of the first such record
(records with another `TYPE` are skipped even if their identifiers
match, which is built into `lineMatches`), and the `findfs` probes are
never invoked. -/
theorem C4_scan_first_match (d u : String) (e : LocateEnv)
    (l0 : List String) (d0 : List (String × String)) (kn : String)
    (hmd : e.is_md_device = false) (hok : e.lsblk_ok = true)
    (hp : ∀ l ∈ e.lsblk_lines, (parseLine l).isSome = true)
    (hf : e.lsblk_lines.find? (lineMatches u) = some l0)
    (hd0 : parseLine l0 = some d0)
    (hk : dictGet d0 ("KNAME") = some kn) :
    (_get_partition d u e).fst = LocResult.found ("/dev/" ++ kn) ∧
    probeCalls (_get_partition d u e).snd = [] := by
  have hscan := scanLoop_hit u e.lsblk_lines l0 d0 kn hp hf hd0 hk
  unfold _get_partition
  cases hpx : e.partx_ok <;> simp [hmd, hok, hscan, probeCalls]

/-- C5: on a non-RAID device whose scan has no matching record, the
UUID probe is attempted before the PARTUUID probe with the same
identifier, the first success is returned trimmed, and a double failure
raises `DeviceNotFound` naming both the device and the uuid. -/
theorem C5_probe_order (d u : String) (e : LocateEnv)
    (hmd : e.is_md_device = false) (hok : e.lsblk_ok = true)
    (hp : ∀ l ∈ e.lsblk_lines, (parseLine l).isSome = true)
    (hf : e.lsblk_lines.find? (lineMatches u) = none) :
    (∀ o, e.findfs_uuid_result = some o →
       (_get_partition d u e).fst = LocResult.found (pyStrip o) ∧
       probeCalls (_get_partition d u e).snd = [Event.findfsUUID u]) ∧
    (e.findfs_uuid_result = none → ∀ o, e.findfs_partuuid_result = some o →
       (_get_partition d u e).fst = LocResult.found (pyStrip o) ∧
       probeCalls (_get_partition d u e).snd =
         [Event.findfsUUID u, Event.findfsPARTUUID u]) ∧
    (e.findfs_uuid_result = none → e.findfs_partuuid_result = none →
       (_get_partition d u e).fst = LocResult.deviceNotFound
         ("No partition with UUID " ++ u ++ " found on device " ++ d) ∧
       probeCalls (_get_partition d u e).snd =
         [Event.findfsUUID u, Event.findfsPARTUUID u]) := by
  have hscan := scanLoop_miss u e.lsblk_lines hp hf
  unfold _get_partition
  refine ⟨?_, ?_, ?_⟩
  · intro o ho
    cases hpx : e.partx_ok <;> simp [hmd, hok, hscan, ho, probeCalls]
  · intro h1 o ho
    cases hpx : e.partx_ok <;> simp [hmd, hok, hscan, h1, ho, probeCalls]
  · intro h1 h2
    cases hpx : e.partx_ok <;> simp [hmd, hok, hscan, h1, h2, probeCalls]

/-- C10: the empty string is not rejected as an identifier: a `part`
record whose (possibly empty) `UUID` or `PARTUUID` field equals `""`
matches, and `/dev/<KNAME>` of the first such record is returned. -/
theorem C10_empty_uuid (d : String) (e : LocateEnv)
    (l0 : List String) (d0 : List (String × String)) (kn : String)
    (hmd : e.is_md_device = false) (hok : e.lsblk_ok = true)
    (hp : ∀ l ∈ e.lsblk_lines, (parseLine l).isSome = true)
    (hf : e.lsblk_lines.find? (lineMatches ("")) = some l0)
    (hd0 : parseLine l0 = some d0)
    (hk : dictGet d0 ("KNAME") = some kn) :
    (_get_partition d ("") e).fst = LocResult.found ("/dev/" ++ kn) := by
  have hscan := scanLoop_hit ("") e.lsblk_lines l0 d0 kn hp hf hd0 hk
  unfold _get_partition
  cases hpx : e.partx_ok <;> simp [hmd, hok, hscan]

/-- A RAID-assembly world where the first partition exists and is a
block special file. -/
def mdLocEnv : LocateEnv :=
  { partx_ok := true, is_md_device := true,
    path_exists := fun _ => true, stat_isblk := fun _ => true,
    lsblk_ok := true, lsblk_lines := [],
    findfs_uuid_result := none, findfs_partuuid_result := none }

theorem C3_raid_shortcut_witness :
    mdLocEnv.is_md_device = true ∧
    ((_get_partition ("/dev/md0") ("abc") mdLocEnv).fst =
        LocResult.found ("/dev/md0" ++ "p1") ↔
      mdLocEnv.path_exists ("/dev/md0" ++ "p1") = true ∧
      mdLocEnv.stat_isblk ("/dev/md0" ++ "p1") = true) :=
  ⟨rfl, (C3_raid_shortcut ("/dev/md0") ("abc") mdLocEnv rfl).1⟩

/-- A scan world with a matching `part` record preceded by a whole-disk
record carrying the same UUID (which must be skipped). -/
def scanLocEnv : LocateEnv :=
  { partx_ok := true, is_md_device := false,
    path_exists := fun _ => false, stat_isblk := fun _ => false,
    lsblk_ok := true,
    lsblk_lines := [["KNAME=sda", "UUID=abc", "PARTUUID=", "TYPE=disk"],
                    ["KNAME=sda1", "UUID=abc", "PARTUUID=", "TYPE=part"]],
    findfs_uuid_result := none, findfs_partuuid_result := none }

theorem C4_scan_first_match_witness :
    scanLocEnv.lsblk_lines.find? (lineMatches ("abc")) =
      some (["KNAME=sda1", "UUID=abc", "PARTUUID=", "TYPE=part"]) ∧
    (_get_partition ("/dev/sda") ("abc") scanLocEnv).fst =
      LocResult.found ("/dev/" ++ "sda1") ∧
    probeCalls (_get_partition ("/dev/sda") ("abc") scanLocEnv).snd = [] := by
  refine ⟨by decide, ?_⟩
  exact C4_scan_first_match ("/dev/sda") ("abc") scanLocEnv
    (["KNAME=sda1", "UUID=abc", "PARTUUID=", "TYPE=part"])
    ([("KNAME", "sda1"), ("UUID", "abc"), ("PARTUUID", ""), ("TYPE", "part")])
    ("sda1") rfl rfl (by decide) (by decide) (by decide) (by decide)

/-- A scan world with no matching record where the UUID probe fails and
the PARTUUID probe answers. -/
def probeLocEnv : LocateEnv :=
  { partx_ok := true, is_md_device := false,
    path_exists := fun _ => false, stat_isblk := fun _ => false,
    lsblk_ok := true,
    lsblk_lines := [["KNAME=sdb1", "UUID=q", "PARTUUID=", "TYPE=part"]],
    findfs_uuid_result := none,
    findfs_partuuid_result := some ("/dev/sdb2\n") }

theorem C5_probe_order_witness :
    probeLocEnv.lsblk_lines.find? (lineMatches ("xyz")) = none ∧
    ((_get_partition ("/dev/sdb") ("xyz") probeLocEnv).fst =
       LocResult.found (pyStrip ("/dev/sdb2\n")) ∧
     probeCalls (_get_partition ("/dev/sdb") ("xyz") probeLocEnv).snd =
       [Event.findfsUUID ("xyz"), Event.findfsPARTUUID ("xyz")]) := by
  refine ⟨by decide, ?_⟩
  exact (C5_probe_order ("/dev/sdb") ("xyz") probeLocEnv rfl rfl
    (by decide) (by decide)).2.1 rfl ("/dev/sdb2\n") rfl

/-- A scan world whose only `part` record has an empty `UUID` field. -/
def emptyUuidLocEnv : LocateEnv :=
  { partx_ok := true, is_md_device := false,
    path_exists := fun _ => false, stat_isblk := fun _ => false,
    lsblk_ok := true,
    lsblk_lines := [["KNAME=sda5", "UUID=", "PARTUUID=", "TYPE=part"]],
    findfs_uuid_result := none, findfs_partuuid_result := none }

theorem C10_empty_uuid_witness :
    emptyUuidLocEnv.lsblk_lines.find? (lineMatches ("")) =
      some (["KNAME=sda5", "UUID=", "PARTUUID=", "TYPE=part"]) ∧
    (_get_partition ("/dev/sda") ("") emptyUuidLocEnv).fst =
      LocResult.found ("/dev/" ++ "sda5") := by
  refine ⟨by decide, ?_⟩
  exact C10_empty_uuid ("/dev/sda") emptyUuidLocEnv
    (["KNAME=sda5", "UUID=", "PARTUUID=", "TYPE=part"])
    ([("KNAME", "sda5"), ("UUID", ""), ("PARTUUID", ""), ("TYPE", "part")])
    ("sda5") rfl rfl (by decide) (by decide) (by decide) (by decide)


theorem umountOk_erase (env : InstallEnv) (M : List String) {t s : String}
    (h : t ≠ s) : umountOk env (M.erase s) t = umountOk env M t := by
  simp only [umountOk, List.contains, List.elem_eq_mem, List.mem_erase_of_ne h]

theorem strApp_left_iff (p a : String) : (p = p ++ a) ↔ ("" = a) := by
  nth_rewrite 1 [← strApp_empty p]
  exact strApp_inj p ("") a

theorem strApp_right_iff (p a : String) : (p ++ a = p) ↔ (a = "") := by
  nth_rewrite 2 [← strApp_empty p]
  exact strApp_inj p a ("")

/-- Full characterisation of the bind/sysfs/root part of cleanup: the
trace and the removal decision, in terms of the five unmount outcomes
against the entry mount set. -/
theorem cleanupBinds_spec (env : InstallEnv) (p : String) (M : List String)
    (tr : List Event) :
    (cleanupBinds env p M tr).rmtree_called =
      (umountOk env M (p ++ "/dev") && umountOk env M (p ++ "/proc") &&
       umountOk env M (p ++ "/run") && umountOk env M (p ++ "/sys") &&
       umountOk env M p) ∧
    (cleanupBinds env p M tr).trace =
      tr ++ [Event.umount (p ++ "/dev"), Event.umount (p ++ "/proc"),
             Event.umount (p ++ "/run"), Event.umount (p ++ "/sys")] ++
      (if (umountOk env M (p ++ "/dev") && umountOk env M (p ++ "/proc") &&
           umountOk env M (p ++ "/run") && umountOk env M (p ++ "/sys")) = true
       then Event.umount p ::
         (if umountOk env M p = true then [Event.rmtree p] else [])
       else []) := by
  unfold cleanupBinds
  dsimp only
  simp only [umountBindsLoop, BIND_MOUNTS]
  by_cases h1 : umountOk env M (p ++ "/dev") = true <;>
  by_cases h2 : umountOk env M (p ++ "/proc") = true <;>
  by_cases h3 : umountOk env M (p ++ "/run") = true <;>
  by_cases h4 : umountOk env M (p ++ "/sys") = true <;>
  by_cases h5 : umountOk env M p = true <;>
  simp_all [umountOk_erase, strApp_inj, strApp_left_iff, strApp_right_iff]


/-- C1: the working directory is removed iff the three bind unmounts,
the sysfs unmount and the root unmount all succeed; any bind or sysfs
failure leaves the directory behind and the root unmount is then not
even attempted.  (The EFI unmount, when one happens, is assumed to
succeed here -- its failure aborts cleanup and is claim C2.) -/
theorem C1_workdir_removal_iff (env : InstallEnv) (p : String) (efiM : Bool)
    (mp : Option String) (M : List String)
    (hefi : efiM = true → mp = some (p ++ "/boot/efi") ∧
            umountOk env M (p ++ "/boot/efi") = true) :
    ((cleanupUnmount env p efiM mp M).rmtree_called = true ↔
       (∀ fs ∈ BIND_MOUNTS, umountOk env M (p ++ fs) = true) ∧
       umountOk env M (p ++ "/sys") = true ∧ umountOk env M p = true) ∧
    (¬ ((∀ fs ∈ BIND_MOUNTS, umountOk env M (p ++ fs) = true) ∧
        umountOk env M (p ++ "/sys") = true) →
       Event.umount p ∉ (cleanupUnmount env p efiM mp M).trace ∧
       (cleanupUnmount env p efiM mp M).rmtree_called = false) := by
  cases efiM with
  | false =>
    have hred : cleanupUnmount env p false mp M = cleanupBinds env p M [] := by
      simp [cleanupUnmount]
    have hc := cleanupBinds_spec env p M []
    constructor
    · rw [hred, hc.1]
      simp only [BIND_MOUNTS, List.mem_cons, List.not_mem_nil, or_false,
        forall_eq_or_imp, forall_eq, Bool.and_eq_true]
      tauto
    · intro h
      rw [hred]
      by_cases hb : (umountOk env M (p ++ "/dev") && umountOk env M (p ++ "/proc") &&
          umountOk env M (p ++ "/run") && umountOk env M (p ++ "/sys")) = true
      · exfalso
        apply h
        simp only [Bool.and_eq_true] at hb
        simp only [BIND_MOUNTS, List.mem_cons, List.not_mem_nil, or_false,
          forall_eq_or_imp, forall_eq]
        tauto
      · constructor
        · rw [hc.2]
          simp [hb, strApp_left_iff]
        · rw [hc.1]
          simp only [Bool.not_eq_true] at hb
          simp [hb]
  | true =>
    obtain ⟨hmp, hok⟩ := hefi rfl
    subst hmp
    have hred : cleanupUnmount env p true (some (p ++ "/boot/efi")) M =
        cleanupBinds env p (M.erase (p ++ "/boot/efi"))
          [Event.umount (p ++ "/boot/efi")] := by
      simp [cleanupUnmount, hok]
    have hc := cleanupBinds_spec env p (M.erase (p ++ "/boot/efi"))
      [Event.umount (p ++ "/boot/efi")]
    have her : ∀ s : String, s ≠ ("/boot/efi" : String) →
        umountOk env (M.erase (p ++ "/boot/efi")) (p ++ s) = umountOk env M (p ++ s) :=
      fun s hs => umountOk_erase env M (strApp_ne p hs)
    have herp : umountOk env (M.erase (p ++ "/boot/efi")) p = umountOk env M p :=
      umountOk_erase env M (strApp_ne_self p (by decide))
    rw [her ("/dev") (by decide), her ("/proc") (by decide),
      her ("/run") (by decide), her ("/sys") (by decide), herp] at hc
    constructor
    · rw [hred, hc.1]
      simp only [BIND_MOUNTS, List.mem_cons, List.not_mem_nil, or_false,
        forall_eq_or_imp, forall_eq, Bool.and_eq_true]
      tauto
    · intro h
      rw [hred]
      by_cases hb : (umountOk env M (p ++ "/dev") && umountOk env M (p ++ "/proc") &&
          umountOk env M (p ++ "/run") && umountOk env M (p ++ "/sys")) = true
      · exfalso
        apply h
        simp only [Bool.and_eq_true] at hb
        simp only [BIND_MOUNTS, List.mem_cons, List.not_mem_nil, or_false,
          forall_eq_or_imp, forall_eq]
        tauto
      · constructor
        · rw [hc.2]
          simp [hb, strApp_left_iff]
        · rw [hc.1]
          simp only [Bool.not_eq_true] at hb
          simp [hb]


/-- An `umount` event in a trace contributes its target to
`umountTargets`. -/
theorem umount_mem_umountTargets (tr : List Event) (x : String)
    (h : Event.umount x ∈ tr) : x ∈ umountTargets tr :=
  List.mem_filterMap.mpr ⟨Event.umount x, h, rfl⟩

/-- A trace with no `umount` targets contains no `umount` event. -/
theorem not_umount_mem (tr : List Event) (h : umountTargets tr = [])
    (x : String) : Event.umount x ∉ tr := by
  intro hx
  have hmem := umount_mem_umountTargets tr x hx
  rw [h] at hmem
  exact (List.not_mem_nil x) hmem

/-- C2: whenever the EFI partition was mounted and its unmount fails,
the caller receives a `CommandExecutionError` (superseding any in-flight
outcome, including success), the working directory is not removed, and
the EFI unmount is the only unmount ever attempted: binds, sysfs and
root are skipped. -/
theorem C2_efi_unmount_failure (device ru : String) (eu pu : Option String)
    (env : InstallEnv)
    (hres : (_install_grub2 device ru eu pu env).efi_mounted = true)
    (hfail : env.umount_ok (env.tmpdir ++ "/boot/efi") = false) :
    (_install_grub2 device ru eu pu env).outcome =
      InstallOutcome.commandExecutionError
        ("Umounting efi system partition failed. Attempted 3 times. " ++
         "Error: ProcessExecutionError") ∧
    (_install_grub2 device ru eu pu env).rmtree_called = false ∧
    umountTargets (_install_grub2 device ru eu pu env).trace =
      [env.tmpdir ++ "/boot/efi"] := by
  unfold _install_grub2 at hres ⊢
  dsimp only at hres ⊢
  cases hroot : (_get_partition device ru env.locRoot).fst with
  | found rp =>
    rw [hroot] at hres
    dsimp only at hres ⊢
    have hmp := setupAndInstall_efiMp device rp eu pu env hres
    rw [hres, hmp]
    have hcl : cleanupUnmount env env.tmpdir true (some (env.tmpdir ++ "/boot/efi"))
        (setupAndInstall device rp eu pu env).mounted =
        { raised := some ("Umounting efi system partition failed. Attempted 3 times. " ++
            "Error: ProcessExecutionError"),
          trace := [Event.umount (env.tmpdir ++ "/boot/efi")],
          rmtree_called := false,
          mounted := (setupAndInstall device rp eu pu env).mounted } := by
      simp [cleanupUnmount, umountOk, hfail]
    rw [hcl]
    refine ⟨rfl, rfl, ?_⟩
    have h1 := umountTargets_locate device ru env.locRoot
    have h2 := umountTargets_setupAndInstall device rp eu pu env
    simp only [umountTargets] at h1 h2 ⊢
    simp [h1, h2]
  | deviceNotFound m =>
    rw [hroot] at hres
    simp at hres
  | commandExecutionError m =>
    rw [hroot] at hres
    simp at hres
  | pyError =>
    rw [hroot] at hres
    simp at hres

/-- C9: a `DeviceNotFound` from the EFI or PReP resolution propagates
unwrapped, cleanup still runs (all four bind/sysfs unmounts are
attempted against the not-mounted targets and fail), the root unmount
is never attempted, and the workdir created before the resolutions is
not deleted. -/
theorem C9_locate_failure_propagates (device ru : String) (env : InstallEnv)
    (rp : String) (tR : List Event)
    (hroot : _get_partition device ru env.locRoot = (LocResult.found rp, tR)) :
    (∀ eu pu m,
       (_get_partition device eu env.locEfi).fst = LocResult.deviceNotFound m →
       (_install_grub2 device ru (some eu) pu env).outcome =
         InstallOutcome.deviceNotFound m ∧
       (_install_grub2 device ru (some eu) pu env).rmtree_called = false ∧
       umountTargets (_install_grub2 device ru (some eu) pu env).trace =
         [env.tmpdir ++ "/dev", env.tmpdir ++ "/proc", env.tmpdir ++ "/run",
          env.tmpdir ++ "/sys"] ∧
       Event.umount env.tmpdir ∉ (_install_grub2 device ru (some eu) pu env).trace ∧
       Event.mkdtemp env.tmpdir ∈ (_install_grub2 device ru (some eu) pu env).trace) ∧
    (∀ pu m,
       (_get_partition device pu env.locPrep).fst = LocResult.deviceNotFound m →
       (_install_grub2 device ru none (some pu) env).outcome =
         InstallOutcome.deviceNotFound m ∧
       (_install_grub2 device ru none (some pu) env).rmtree_called = false ∧
       umountTargets (_install_grub2 device ru none (some pu) env).trace =
         [env.tmpdir ++ "/dev", env.tmpdir ++ "/proc", env.tmpdir ++ "/run",
          env.tmpdir ++ "/sys"] ∧
       Event.umount env.tmpdir ∉ (_install_grub2 device ru none (some pu) env).trace ∧
       Event.mkdtemp env.tmpdir ∈ (_install_grub2 device ru none (some pu) env).trace) := by
  have htR : umountTargets tR = [] := by
    have h := umountTargets_locate device ru env.locRoot
    rw [hroot] at h
    exact h
  constructor
  · intro eu pu m hE
    unfold _install_grub2
    rw [hroot]
    dsimp only
    unfold setupAndInstall
    dsimp only
    rw [hE]
    dsimp only
    rw [cleanup_nothing_mounted]
    have hloc := umountTargets_locate device eu env.locEfi
    refine ⟨rfl, rfl, ?_, ?_, ?_⟩
    · have h1 := htR
      simp only [umountTargets] at h1 hloc ⊢
      simp [h1, hloc]
    · intro hx
      rcases List.mem_append.mp hx with hx1 | hx2
      · rcases List.mem_append.mp hx1 with hx3 | hx4
        · exact not_umount_mem tR htR _ hx3
        · rcases List.mem_cons.mp hx4 with h | h
          · exact absurd h (by simp)
          · exact not_umount_mem _ hloc _ h
      · simp [strApp_left_iff] at hx2
    · simp
  · intro pu m hP
    unfold _install_grub2
    rw [hroot]
    dsimp only
    unfold setupAndInstall resolvePrep
    dsimp only
    rw [hP]
    dsimp only
    rw [cleanup_nothing_mounted]
    have hloc := umountTargets_locate device pu env.locPrep
    refine ⟨rfl, rfl, ?_, ?_, ?_⟩
    · have h1 := htR
      simp only [umountTargets] at h1 hloc ⊢
      simp [h1, hloc]
    · intro hx
      rcases List.mem_append.mp hx with hx1 | hx2
      · rcases List.mem_append.mp hx1 with hx3 | hx4
        · exact not_umount_mem tR htR _ hx3
        · rcases List.mem_cons.mp hx4 with h | h
          · exact absurd h (by simp)
          · exact not_umount_mem _ hloc _ h
      · simp [strApp_left_iff] at hx2
    · simp


/-- A world where every external operation succeeds. -/
def wBase : InstallEnv :=
  { locRoot := mdLocEnv, locEfi := mdLocEnv, locPrep := mdLocEnv,
    tmpdir := "/t", is_md_device := fun _ => false, holder_disks := fun _ => [],
    grub2_install_exists := true, efi_mp_exists := true,
    mount_ok := fun _ => true, umount_ok := fun _ => true,
    grub_install_ok := fun _ => true, grub_removable_ok := true,
    mkconfig_ok := true }

theorem C1_workdir_removal_iff_witness :
    (cleanupUnmount wBase ("/t") true (some ("/t" ++ "/boot/efi"))
      ["/t", "/t" ++ "/dev", "/t" ++ "/proc", "/t" ++ "/run", "/t" ++ "/sys",
       "/t" ++ "/boot/efi"]).rmtree_called = true :=
  (C1_workdir_removal_iff wBase ("/t") true (some ("/t" ++ "/boot/efi"))
    (["/t", "/t" ++ "/dev", "/t" ++ "/proc", "/t" ++ "/run", "/t" ++ "/sys",
      "/t" ++ "/boot/efi"])
    (fun _ => ⟨rfl, by decide⟩)).1.mpr (by decide)

/-- A world where only the EFI unmount fails. -/
def wEfiFail : InstallEnv :=
  { wBase with umount_ok := fun t => !(t == "/t" ++ "/boot/efi") }

theorem C2_efi_unmount_failure_witness :
    (_install_grub2 ("/dev/sda") ("r") (some ("e")) none wEfiFail).efi_mounted = true ∧
    (_install_grub2 ("/dev/sda") ("r") (some ("e")) none wEfiFail).outcome =
      InstallOutcome.commandExecutionError
        ("Umounting efi system partition failed. Attempted 3 times. " ++
         "Error: ProcessExecutionError") :=
  ⟨by decide, (C2_efi_unmount_failure ("/dev/sda") ("r") (some ("e")) none wEfiFail
      (by decide) (by decide)).1⟩

/-- A locate world whose RAID shortcut partition is missing, so that
resolution raises `DeviceNotFound`. -/
def dnfLocEnv : LocateEnv :=
  { partx_ok := true, is_md_device := true, path_exists := fun _ => false,
    stat_isblk := fun _ => false, lsblk_ok := true, lsblk_lines := [],
    findfs_uuid_result := none, findfs_partuuid_result := none }

/-- A world where the EFI uuid cannot be resolved. -/
def wEfiDnf : InstallEnv := { wBase with locEfi := dnfLocEnv }

theorem C9_locate_failure_propagates_witness :
    _get_partition ("/dev/sda") ("r") wEfiDnf.locRoot =
      (LocResult.found ("/dev/sda" ++ "p1"),
       [Event.partx ("/dev/sda"), Event.udevadm]) ∧
    ((_install_grub2 ("/dev/sda") ("r") (some ("e")) none wEfiDnf).outcome =
       InstallOutcome.deviceNotFound
         ("Could not find partition " ++ ("/dev/sda" ++ "p1") ++
          " on md device " ++ "/dev/sda") ∧
     (_install_grub2 ("/dev/sda") ("r") (some ("e")) none wEfiDnf).rmtree_called =
       false) := by
  refine ⟨by decide, ?_⟩
  have h := (C9_locate_failure_propagates ("/dev/sda") ("r") wEfiDnf ("/dev/sdap1")
    ([Event.partx ("/dev/sda"), Event.udevadm]) (by decide)).1 ("e") none
    ("Could not find partition " ++ ("/dev/sda" ++ "p1") ++
     " on md device " ++ "/dev/sda") (by decide)
  exact ⟨h.1, h.2.1⟩


theorem mkconfigPhase_trace (env : InstallEnv) (dev : String) (m : List String)
    (efiM : Bool) (mp : Option String) (tr : List Event) :
    (mkconfigPhase env dev m efiM mp tr).trace = tr ++ [Event.grubMkconfig] := by
  unfold mkconfigPhase
  dsimp only
  split <;> rfl

/-- Evaluation of the mount-and-install phase on a fully successful
non-RAID run with a resolved EFI partition. -/
theorem mountAndInstall_spec_efi (env : InstallEnv) (rp ep : String)
    (mp : Option String) (dev p : String) (tr : List Event)
    (hm : ∀ t, env.mount_ok t = true) (hg : ∀ x, env.grub_install_ok x = true)
    (hrem : env.grub_removable_ok = true) (hcfg : env.mkconfig_ok = true)
    (hmd : env.is_md_device dev = false) :
    mountAndInstall env rp (some ep) mp dev p tr =
      { outcome := InstallOutcome.ok,
        trace := tr ++ [Event.mount p, Event.mount (p ++ "/dev"),
            Event.mount (p ++ "/proc"), Event.mount (p ++ "/run"),
            Event.mount (p ++ "/sys")] ++
          (if env.efi_mp_exists then [] else [Event.makedirs (mp.getD (""))]) ++
          [Event.mount (mp.getD ("")), Event.grubInstall dev,
           Event.grubInstallRemovable dev, Event.grubMkconfig],
        mounted := [p, p ++ "/dev", p ++ "/proc", p ++ "/run", p ++ "/sys",
          mp.getD ("")],
        efi_mounted := true, efi_partition_mount_point := mp, device := dev } := by
  unfold mountAndInstall installPhase
  dsimp only
  by_cases hmk : env.efi_mp_exists = true <;>
    simp [hm, hg, hmd, hrem, hmk, mountBinds_all_ok env p hm,
      installDisks_all_ok env _ hg, mkconfigPhase, hcfg]

/-- Evaluation of the mount-and-install phase on a fully successful run
without an EFI partition; the RAID branch is kept symbolic. -/
theorem mountAndInstall_spec_none (env : InstallEnv) (rp : String)
    (mp : Option String) (dev p : String) (tr : List Event)
    (hm : ∀ t, env.mount_ok t = true) (hg : ∀ x, env.grub_install_ok x = true)
    (hcfg : env.mkconfig_ok = true) :
    mountAndInstall env rp none mp dev p tr =
      { outcome := InstallOutcome.ok,
        trace := tr ++
          (if env.is_md_device dev then
            [Event.mdRestart dev, Event.getHolderDisks dev] else []) ++
          [Event.mount p, Event.mount (p ++ "/dev"), Event.mount (p ++ "/proc"),
           Event.mount (p ++ "/run"), Event.mount (p ++ "/sys")] ++
          ((if env.is_md_device dev then env.holder_disks dev else [dev]).map
            Event.grubInstall) ++
          [Event.grubMkconfig],
        mounted := [p, p ++ "/dev", p ++ "/proc", p ++ "/run", p ++ "/sys"],
        efi_mounted := false, efi_partition_mount_point := mp, device := dev } := by
  unfold mountAndInstall installPhase
  dsimp only
  by_cases hmd : env.is_md_device dev = true <;>
    simp [hm, hg, hmd, mountBinds_all_ok env p hm,
      installDisks_all_ok env _ hg, mkconfigPhase, hcfg]


/-- C6 (counterexample): in a fully successful run with an EFI
partition, the unmount order is NOT the exact reverse of the mount
order -- after EFI, the binds are unmounted in forward order before
sysfs. -/
theorem C6_counterexample :
    ¬ (umountTargets (_install_grub2 ("/dev/sda") ("r") (some ("e")) none wBase).trace =
       (mountTargets
         (_install_grub2 ("/dev/sda") ("r") (some ("e")) none wBase).trace).reverse) := by
  decide

/-- C6 (amended): mounts happen in the order root, binds `/dev`,
`/proc`, `/run`, sysfs, EFI; cleanup unmounts EFI first, then the binds
in the same forward order, then sysfs, then root -- not the exact
reverse. -/
theorem C6_mount_unmount_order (device ru eu : String) (env : InstallEnv)
    (rp ep : String) (tR tE : List Event)
    (hroot : _get_partition device ru env.locRoot = (LocResult.found rp, tR))
    (hE : _get_partition device eu env.locEfi = (LocResult.found ep, tE))
    (hmd : env.is_md_device device = false)
    (hm : ∀ t, env.mount_ok t = true) (hu : ∀ t, env.umount_ok t = true)
    (hg : ∀ x, env.grub_install_ok x = true)
    (hrem : env.grub_removable_ok = true) (hcfg : env.mkconfig_ok = true) :
    mountTargets (_install_grub2 device ru (some eu) none env).trace =
      [env.tmpdir, env.tmpdir ++ "/dev", env.tmpdir ++ "/proc",
       env.tmpdir ++ "/run", env.tmpdir ++ "/sys", env.tmpdir ++ "/boot/efi"] ∧
    umountTargets (_install_grub2 device ru (some eu) none env).trace =
      [env.tmpdir ++ "/boot/efi", env.tmpdir ++ "/dev", env.tmpdir ++ "/proc",
       env.tmpdir ++ "/run", env.tmpdir ++ "/sys", env.tmpdir] := by
  have htR : mountTargets tR = [] := by
    have h := mountTargets_locate device ru env.locRoot
    rw [hroot] at h; exact h
  have htRu : umountTargets tR = [] := by
    have h := umountTargets_locate device ru env.locRoot
    rw [hroot] at h; exact h
  have htE : mountTargets tE = [] := by
    have h := mountTargets_locate device eu env.locEfi
    rw [hE] at h; exact h
  have htEu : umountTargets tE = [] := by
    have h := umountTargets_locate device eu env.locEfi
    rw [hE] at h; exact h
  unfold _install_grub2
  rw [hroot]
  dsimp only
  unfold setupAndInstall
  dsimp only
  rw [hE]
  dsimp only
  unfold resolvePrep
  dsimp only
  rw [mountAndInstall_spec_efi env rp ep (some (env.tmpdir ++ "/boot/efi"))
    device env.tmpdir _ hm hg hrem hcfg hmd]
  dsimp only
  simp only [Option.getD_some]
  rw [cleanup_full_success env env.tmpdir hu]
  constructor
  · simp only [mountTargets] at htR htE ⊢
    by_cases hmk : env.efi_mp_exists = true <;>
      simp [htR, htE, hmk, List.filterMap_append]
  · simp only [umountTargets] at htRu htEu ⊢
    by_cases hmk : env.efi_mp_exists = true <;>
      simp [htRu, htEu, hmk, List.filterMap_append]

theorem C6_mount_unmount_order_witness :
    _get_partition ("/dev/sda") ("r") wBase.locRoot =
      (LocResult.found ("/dev/sda" ++ "p1"),
       [Event.partx ("/dev/sda"), Event.udevadm]) ∧
    umountTargets (_install_grub2 ("/dev/sda") ("r") (some ("e")) none wBase).trace =
      ["/t" ++ "/boot/efi", "/t" ++ "/dev", "/t" ++ "/proc", "/t" ++ "/run",
       "/t" ++ "/sys", "/t"] := by
  refine ⟨by decide, ?_⟩
  have h := (C6_mount_unmount_order ("/dev/sda") ("r") ("e") wBase
    ("/dev/sdap1") ("/dev/sdap1")
    ([Event.partx ("/dev/sda"), Event.udevadm])
    ([Event.partx ("/dev/sda"), Event.udevadm])
    (by decide) (by decide) (by decide) (fun t => rfl) (fun t => rfl)
    (fun x => rfl) rfl rfl).2
  exact h


/-- Per-disk install events contribute exactly the disks. -/
theorem installedDisks_map_grubInstall (l : List String) :
    installedDisks (l.map Event.grubInstall) = l := by
  induction l with
  | nil => rfl
  | cons a t ih =>
    simp only [installedDisks, List.filterMap_cons] at ih ⊢
    simp [ih]

/-- Per-disk install events contain no array restart. -/
theorem mdRestarts_map_grubInstall (l : List String) :
    mdRestarts (l.map Event.grubInstall) = [] := by
  induction l with
  | nil => rfl
  | cons a t ih =>
    simp only [mdRestarts, List.filterMap_cons] at ih ⊢
    simp [ih]

/-- A `--removable` event in a trace contributes its device to
`removableRuns`. -/
theorem removable_mem_removableRuns (tr : List Event) (x : String)
    (h : Event.grubInstallRemovable x ∈ tr) : x ∈ removableRuns tr :=
  List.mem_filterMap.mpr ⟨Event.grubInstallRemovable x, h, rfl⟩

/-- A world where the original device is not a RAID assembly but the
PReP partition it resolves to is one. -/
def wPrepMd : InstallEnv :=
  { wBase with
      is_md_device := fun d => d == "/dev/sda" ++ "p1",
      holder_disks := fun _ => ["/dev/h1", "/dev/h2"] }

/-- C7 (counterexample): with a PReP uuid, the RAID-assembly test runs
on the reassigned device variable (the PReP partition), not on the
original device: the original device is not a RAID assembly, yet the
array restart fires and the installer runs once per holder disk of the
PReP partition instead of once on the device. -/
theorem C7_counterexample :
    wPrepMd.is_md_device ("/dev/sda") = false ∧
    mdRestarts (_install_grub2 ("/dev/sda") ("r") none (some ("p")) wPrepMd).trace =
      [("/dev/sda" ++ "p1")] ∧
    installedDisks
      (_install_grub2 ("/dev/sda") ("r") none (some ("p")) wPrepMd).trace =
      [("/dev/h1"), ("/dev/h2")] := by
  decide

/-- C7 (amended): the RAID-assembly test is applied to the current
install-target device -- the PReP partition when a PReP uuid was given,
the original device otherwise; if that device is a RAID assembly the
array is restarted and the installer runs once per holder disk,
otherwise the holder-disk list is exactly that device. -/
theorem C7_raid_check_on_install_target (device ru : String) (pu : Option String)
    (env : InstallEnv) (rp dev2 : String) (tR : List Event)
    (hroot : _get_partition device ru env.locRoot = (LocResult.found rp, tR))
    (hdev : (pu = none ∧ dev2 = device) ∨
            (∃ u tP, pu = some u ∧
              _get_partition device u env.locPrep = (LocResult.found dev2, tP)))
    (hm : ∀ t, env.mount_ok t = true) (hg : ∀ x, env.grub_install_ok x = true)
    (hcfg : env.mkconfig_ok = true) :
    (env.is_md_device dev2 = true →
       mdRestarts (_install_grub2 device ru none pu env).trace = [dev2] ∧
       installedDisks (_install_grub2 device ru none pu env).trace =
         env.holder_disks dev2) ∧
    (env.is_md_device dev2 = false →
       mdRestarts (_install_grub2 device ru none pu env).trace = [] ∧
       installedDisks (_install_grub2 device ru none pu env).trace = [dev2]) := by
  have htRm : mdRestarts tR = [] := by
    have h := mdRestarts_locate device ru env.locRoot
    rw [hroot] at h; exact h
  have htRi : installedDisks tR = [] := by
    have h := installedDisks_locate device ru env.locRoot
    rw [hroot] at h; exact h
  have hcm := mdRestarts_cleanup env env.tmpdir false none
    [env.tmpdir, env.tmpdir ++ "/dev", env.tmpdir ++ "/proc",
     env.tmpdir ++ "/run", env.tmpdir ++ "/sys"]
  have hci := installedDisks_cleanup env env.tmpdir false none
    [env.tmpdir, env.tmpdir ++ "/dev", env.tmpdir ++ "/proc",
     env.tmpdir ++ "/run", env.tmpdir ++ "/sys"]
  rcases hdev with ⟨hpu, hdev2⟩ | ⟨u, tP, hpu, hP⟩
  · subst hpu
    subst hdev2
    unfold _install_grub2
    rw [hroot]
    dsimp only
    unfold setupAndInstall resolvePrep
    dsimp only
    rw [mountAndInstall_spec_none env rp none _ env.tmpdir _ hm hg hcfg]
    dsimp only
    constructor
    · intro hmd
      constructor
      · have hmap := mdRestarts_map_grubInstall (env.holder_disks dev2)
        simp only [mdRestarts] at htRm hcm hmap ⊢
        simp [htRm, hcm, hmd, hmap, List.filterMap_append]
      · have hmap := installedDisks_map_grubInstall (env.holder_disks dev2)
        simp only [installedDisks] at htRi hci hmap ⊢
        simp [htRi, hci, hmd, hmap, List.filterMap_append]
    · intro hmd
      constructor
      · simp only [mdRestarts] at htRm hcm ⊢
        simp [htRm, hcm, hmd, List.filterMap_append]
      · simp only [installedDisks] at htRi hci ⊢
        simp [htRi, hci, hmd, List.filterMap_append]
  · subst hpu
    have htPm : mdRestarts tP = [] := by
      have h := mdRestarts_locate device u env.locPrep
      rw [hP] at h; exact h
    have htPi : installedDisks tP = [] := by
      have h := installedDisks_locate device u env.locPrep
      rw [hP] at h; exact h
    unfold _install_grub2
    rw [hroot]
    dsimp only
    unfold setupAndInstall resolvePrep
    dsimp only
    rw [hP]
    dsimp only
    rw [mountAndInstall_spec_none env rp none dev2 env.tmpdir _ hm hg hcfg]
    dsimp only
    constructor
    · intro hmd
      constructor
      · have hmap := mdRestarts_map_grubInstall (env.holder_disks dev2)
        simp only [mdRestarts] at htRm htPm hcm hmap ⊢
        simp [htRm, htPm, hcm, hmd, hmap, List.filterMap_append]
      · have hmap := installedDisks_map_grubInstall (env.holder_disks dev2)
        simp only [installedDisks] at htRi htPi hci hmap ⊢
        simp [htRi, htPi, hci, hmd, hmap, List.filterMap_append]
    · intro hmd
      constructor
      · simp only [mdRestarts] at htRm htPm hcm ⊢
        simp [htRm, htPm, hcm, hmd, List.filterMap_append]
      · simp only [installedDisks] at htRi htPi hci ⊢
        simp [htRi, htPi, hci, hmd, List.filterMap_append]

theorem C7_raid_check_on_install_target_witness :
    wPrepMd.is_md_device ("/dev/sda" ++ "p1") = true ∧
    (mdRestarts (_install_grub2 ("/dev/sda") ("r") none (some ("p")) wPrepMd).trace =
       [("/dev/sda" ++ "p1")] ∧
     installedDisks
       (_install_grub2 ("/dev/sda") ("r") none (some ("p")) wPrepMd).trace =
       wPrepMd.holder_disks ("/dev/sda" ++ "p1")) := by
  refine ⟨by decide, ?_⟩
  exact (C7_raid_check_on_install_target ("/dev/sda") ("r") (some ("p")) wPrepMd
    ("/dev/sdap1") ("/dev/sda" ++ "p1")
    ([Event.partx ("/dev/sda"), Event.udevadm]) (by decide)
    (Or.inr ⟨("p"), [Event.partx ("/dev/sda"), Event.udevadm], rfl, by decide⟩)
    (fun t => rfl) (fun x => rfl) rfl).1 (by decide)


/-- C8 (counterexample): with both an EFI and a PReP uuid, the
`--removable` pass runs against the reassigned device variable (the
PReP partition), not against the original device passed to install. -/
theorem C8_counterexample :
    removableRuns
      (_install_grub2 ("/dev/sda") ("r") (some ("e")) (some ("p")) wBase).trace =
      [("/dev/sda" ++ "p1")] ∧
    ("/dev/sda" ++ "p1") ≠ ("/dev/sda") ∧
    Event.grubInstallRemovable ("/dev/sda") ∉
      (_install_grub2 ("/dev/sda") ("r") (some ("e")) (some ("p")) wBase).trace := by
  refine ⟨by decide, by decide, ?_⟩
  decide

/-- C8 (amended): when an EFI partition is resolved, the extra
`--removable` installer pass runs against the current target device --
the original device when no PReP uuid was supplied, and the PReP
partition when one redefined the installation target. -/
theorem C8_removable_on_install_target (device ru eu : String) (pu : Option String)
    (env : InstallEnv) (rp ep dev2 : String) (tR tE : List Event)
    (hroot : _get_partition device ru env.locRoot = (LocResult.found rp, tR))
    (hE : _get_partition device eu env.locEfi = (LocResult.found ep, tE))
    (hdev : (pu = none ∧ dev2 = device) ∨
            (∃ u tP, pu = some u ∧
              _get_partition device u env.locPrep = (LocResult.found dev2, tP)))
    (hmd : env.is_md_device dev2 = false)
    (hm : ∀ t, env.mount_ok t = true) (hg : ∀ x, env.grub_install_ok x = true)
    (hrem : env.grub_removable_ok = true) (hcfg : env.mkconfig_ok = true) :
    removableRuns (_install_grub2 device ru (some eu) pu env).trace = [dev2] ∧
    (dev2 ≠ device →
      Event.grubInstallRemovable device ∉
        (_install_grub2 device ru (some eu) pu env).trace) := by
  have htR : removableRuns tR = [] := by
    have h := removableRuns_locate device ru env.locRoot
    rw [hroot] at h; exact h
  have htE : removableRuns tE = [] := by
    have h := removableRuns_locate device eu env.locEfi
    rw [hE] at h; exact h
  have hc := removableRuns_cleanup env env.tmpdir true
    (some (env.tmpdir ++ "/boot/efi"))
    [env.tmpdir, env.tmpdir ++ "/dev", env.tmpdir ++ "/proc",
     env.tmpdir ++ "/run", env.tmpdir ++ "/sys", env.tmpdir ++ "/boot/efi"]
  have hmain : removableRuns
      (_install_grub2 device ru (some eu) pu env).trace = [dev2] := by
    rcases hdev with ⟨hpu, hdev2⟩ | ⟨u, tP, hpu, hP⟩
    · subst hpu
      subst hdev2
      unfold _install_grub2
      rw [hroot]
      dsimp only
      unfold setupAndInstall
      dsimp only
      rw [hE]
      dsimp only
      unfold resolvePrep
      dsimp only
      rw [mountAndInstall_spec_efi env rp ep (some (env.tmpdir ++ "/boot/efi"))
        _ env.tmpdir _ hm hg hrem hcfg hmd]
      dsimp only
      simp only [Option.getD_some]
      simp only [removableRuns] at htR htE hc ⊢
      by_cases hmk : env.efi_mp_exists = true <;>
        simp [htR, htE, hc, hmk, List.filterMap_append]
    · subst hpu
      have htP : removableRuns tP = [] := by
        have h := removableRuns_locate device u env.locPrep
        rw [hP] at h; exact h
      unfold _install_grub2
      rw [hroot]
      dsimp only
      unfold setupAndInstall
      dsimp only
      rw [hE]
      dsimp only
      unfold resolvePrep
      dsimp only
      rw [hP]
      dsimp only
      rw [mountAndInstall_spec_efi env rp ep (some (env.tmpdir ++ "/boot/efi"))
        dev2 env.tmpdir _ hm hg hrem hcfg hmd]
      dsimp only
      simp only [Option.getD_some]
      simp only [removableRuns] at htR htE htP hc ⊢
      by_cases hmk : env.efi_mp_exists = true <;>
        simp [htR, htE, htP, hc, hmk, List.filterMap_append]
  refine ⟨hmain, fun hne hx => ?_⟩
  have hmem := removable_mem_removableRuns _ _ hx
  rw [hmain] at hmem
  simp at hmem
  exact hne hmem.symm

theorem C8_removable_on_install_target_witness :
    removableRuns
      (_install_grub2 ("/dev/sda") ("r") (some ("e")) none wBase).trace =
      [("/dev/sda")] :=
  (C8_removable_on_install_target ("/dev/sda") ("r") ("e") none wBase
    ("/dev/sdap1") ("/dev/sdap1") ("/dev/sda")
    ([Event.partx ("/dev/sda"), Event.udevadm])
    ([Event.partx ("/dev/sda"), Event.udevadm])
    (by decide) (by decide)
    (Or.inl ⟨rfl, rfl⟩)
    (by decide)
    (fun t => rfl) (fun x => rfl) rfl rfl).1

end ImageExt
